import Mathlib

/-!
Shallow embedding of the ScaleWiz test-execution controller
(`src/scalewiz/models/test_handler.py`) and proofs about it.

Conventions of the embedding:
* Python floats are modelled as `ℚ`, Python ints as `ℤ`.
* Python's `round` (banker's rounding, ties to even) is `pyRound`;
  `round(x, 2)` is `pyRound2`.
* Python's `%` on numbers is `pymod` (defined for a nonzero modulus;
  `pymodOpt` returns `none` for the `ZeroDivisionError` case).
* A value that can be `None` in Python is an `Option`; an operation that can
  raise is paired with an `Option PyError`.
* `tkinter` variables (`IntVar`, `DoubleVar`, ...) are plain fields; the
  project limits are a snapshot captured in the controller state.
-/

namespace ScaleWiz

/-- The Python exceptions the embedded code can raise. -/
inductive PyError where
  | typeError
  | zeroDivisionError
  | valueError
  | attributeError
deriving DecidableEq, Repr

/-- Python `round`: round half to even (banker's rounding), as used by
`round(x)` on an exactly-represented value. -/
def pyRound (q : ℚ) : ℤ :=
  if q - ⌊q⌋ < 1 / 2 then ⌊q⌋
  else if 1 / 2 < q - ⌊q⌋ then ⌊q⌋ + 1
  else if ⌊q⌋ % 2 = 0 then ⌊q⌋ else ⌊q⌋ + 1

/-- Python `round(x, 2)`: round to two decimal places, ties to even. -/
def pyRound2 (q : ℚ) : ℚ := (pyRound (q * 100) : ℚ) / 100

/-- Python `x % y` for a nonzero modulus `y`: the remainder with the sign of
`y`, namely `x - y * ⌊x / y⌋`. -/
def pymod (x y : ℚ) : ℚ := x - y * ⌊x / y⌋

/-- Python `x % y` including the `ZeroDivisionError` raised when `y = 0`. -/
def pymodOpt (x y : ℚ) : Option ℚ :=
  if y = 0 then none else some (pymod x y)

/-- The per-tick sleep expression of the readings loop
(`test_handler.py:196`): `interval - ((now - start_time) % interval)`. -/
def sleep_duration (interval now start : ℚ) : ℚ :=
  interval - pymod (now - start) interval

/-- One `Reading` (`scalewiz/models/test.py`): elapsed minutes, both pump
pressures, and their rounded average. -/
structure Reading where
  elapsedMin : ℚ
  pump1 : ℚ
  pump2 : ℚ
  average : ℤ
deriving DecidableEq, Repr

/-- The fields of `TestHandler` (plus the project-limit snapshot and the
persistence counters) that the embedded operations read or write.

* `limit_psi`, `limit_minutes`, `interval_seconds`, `uptake_seconds` are the
  project limits (`project.limit_psi.get()` etc.).
* `elapsed_min` is `Option`al: `__init__` sets `self.elapsed_min = None` and
  only the readings loop ever assigns it a number.
* `readings` is the `Queue` contents in insertion order; `qsize()` is its
  length.
* `test_readings` is `self.test.readings`; `project_tests` is
  `self.project.tests`, each test kept as its list of readings;
  `dump_count` counts calls of `self.project.dump_json()`.
-/
structure HState where
  limit_psi : ℤ
  limit_minutes : ℚ
  interval_seconds : ℚ
  uptake_seconds : ℚ
  max_psi_1 : ℚ
  max_psi_2 : ℚ
  elapsed_min : Option ℚ
  readings : List Reading
  max_readings : ℤ
  stop_requested : Bool
  is_running : Bool
  is_done : Bool
  progress : ℤ
  pump1_open : Bool
  pump2_open : Bool
  test_readings : List Reading
  project_tests : List (List Reading)
  dump_count : ℕ
deriving DecidableEq, Repr

/-- The external world the sampling worker reads: at tick `k`,
`elapsedSec k` is `monotonic() - test_start_time` in seconds, and `psi1 k`,
`psi2 k` are the two pump pressures. -/
structure Env where
  elapsedSec : ℕ → ℚ
  psi1 : ℕ → ℚ
  psi2 : ℕ → ℚ

/-- `TestHandler.can_run` (`test_handler.py:61-71`):

```python
return (
    (self.max_psi_1 <= self.project.limit_psi.get()
     or self.max_psi_2 <= self.project.limit_psi.get())
    and self.elapsed_min <= self.project.limit_minutes.get()
    and self.readings.qsize() < self.max_readings
    and not self.stop_requested.is_set()
)
```

Python evaluates `(a or b) and c and d and e` left to right with
short-circuiting: when the disjunction is falsy the whole expression is
`False` without evaluating `c`; otherwise `c` compares `self.elapsed_min`
against a float, which raises `TypeError` when `elapsed_min` is `None`
(modelled as `none`). -/
def can_run (s : HState) : Option Bool :=
  if s.max_psi_1 ≤ (s.limit_psi : ℚ) ∨ s.max_psi_2 ≤ (s.limit_psi : ℚ) then
    match s.elapsed_min with
    | none => none
    | some e =>
        some (decide (e ≤ s.limit_minutes)
          && decide ((s.readings.length : ℤ) < s.max_readings)
          && !s.stop_requested)
  else some false

/-- `TestHandler.request_stop` (`test_handler.py:204-209`): sets the stop
flag when a test is running, otherwise does nothing. -/
def request_stop (s : HState) : HState :=
  if s.is_running then { s with stop_requested := true } else s

/-- `TestHandler.stop_test` (`test_handler.py:211-226`): for each pump that
is open, stop it and close its port (a no-op on a closed pump), then mark the
run done.  Bells and view rebuilds are presentation-only and not modelled. -/
def stop_test (s : HState) : HState :=
  { s with pump1_open := false, pump2_open := false, is_done := true }

/-- `TestHandler.save_test` (`test_handler.py:228-236`): append every queued
reading, in insertion order, to `self.test.readings`, append the test to
`self.project.tests`, and call `self.project.dump_json()` (counted by
`dump_count`).  The trailing `load_project`/`rebuild_views` refresh is
file/UI I/O outside the embedding. -/
def save_test (s : HState) : HState :=
  { s with
    test_readings := s.test_readings ++ s.readings,
    project_tests := s.project_tests ++ [s.test_readings ++ s.readings],
    dump_count := s.dump_count + 1 }

/-- `TestHandler.new_test` (`test_handler.py:265-278`): fresh `Test`, clear
the readings queue, reset the maxima and flags, then compute
`max_readings = round(limit_minutes * 60 / interval_seconds)`.  In Python the
division raises `ZeroDivisionError` when `interval_seconds` is `0`; the
updates made before that line (including clearing the queue) have already
happened, and `max_readings` keeps its old value.  `elapsed_min` is not
touched: it stays whatever it was (`None` right after `__init__`). -/
def new_test (s : HState) : HState × Option PyError :=
  let s1 := { s with
    test_readings := [],
    readings := [],
    max_psi_1 := 0,
    max_psi_2 := 0,
    is_running := false,
    is_done := false,
    progress := 0 }
  if s.interval_seconds = 0 then (s1, some PyError.zeroDivisionError)
  else
    ({ s1 with
        max_readings := pyRound (s.limit_minutes * 60 / s.interval_seconds) },
      none)

/-- The uptake cycle of `TestHandler.take_readings`
(`test_handler.py:154-160`):

```python
for i in range(100):
    if self.can_run():
        self.progress.set(i)
        sleep(step - ((monotonic() - rinse_start) % step))
    else:
        self.stop_test()
        break
```

`fuel` counts the remaining iterations (`100 - i`).  When `can_run` raises
(`elapsed_min` is `None`) the `TypeError` propagates; when `step = 0`
(that is, `uptake_seconds = 0`) the `%` in the sleep expression raises
`ZeroDivisionError` — in both cases after `progress.set(i)` of the current
iteration where applicable.  The `break` only leaves this loop: execution
continues after it. -/
def uptake_loop (s : HState) (i : ℕ) : ℕ → HState × Option PyError
  | 0 => (s, none)
  | n + 1 =>
    match can_run s with
    | none => (s, some PyError.typeError)
    | some false => (stop_test s, none)
    | some true =>
      let s' := { s with progress := (i : ℤ) }
      if s.uptake_seconds = 0 then (s', some PyError.zeroDivisionError)
      else uptake_loop s' (i + 1) n

/-- The body of one iteration of the readings loop
(`test_handler.py:167-193`), everything between the `while self.can_run():`
check and the drift-corrected sleep: read both pressures, build the
`Reading`, push it onto the queue, set `elapsed_min`, update the progress
percentage and the maxima.  The tick index is the current queue size. -/
def reading_step (env : Env) (s : HState) : HState :=
  let k := s.readings.length
  let minutes := pyRound2 (env.elapsedSec k / 60)
  let p1 := env.psi1 k
  let p2 := env.psi2 k
  let avg := pyRound ((p1 + p2) / 2)
  { s with
    readings := s.readings ++ [⟨minutes, p1, p2, avg⟩],
    elapsed_min := some minutes,
    progress := pyRound ((s.readings.length + 1 : ℚ) / (s.max_readings : ℚ) * 100),
    max_psi_1 := if p1 > s.max_psi_1 then p1 else s.max_psi_1,
    max_psi_2 := if p2 > s.max_psi_2 then p2 else s.max_psi_2 }

theorem reading_step_max_readings (env : Env) (s : HState) :
    (reading_step env s).max_readings = s.max_readings := rfl

theorem reading_step_length (env : Env) (s : HState) :
    (reading_step env s).readings.length = s.readings.length + 1 := by
  simp [reading_step]

/-- `can_run s = some true` forces the queue-size conjunct. -/
theorem can_run_true_length (s : HState) (h : can_run s = some true) :
    (s.readings.length : ℤ) < s.max_readings := by
  unfold can_run at h
  split at h
  · cases he : s.elapsed_min with
    | none => rw [he] at h; exact absurd h (by simp)
    | some e =>
      rw [he] at h
      simp only [Option.some.injEq, Bool.and_eq_true, decide_eq_true_eq] at h
      exact h.1.2
  · exact absurd h (by simp)

/-- The readings loop of `TestHandler.take_readings`
(`test_handler.py:167-196`): while `can_run()` holds, perform a
`reading_step` and sleep `interval - ((monotonic() - test_start_time) %
interval)`.  The `%` raises `ZeroDivisionError` when `interval = 0`; a
`None` `elapsed_min` makes the `while` condition itself raise `TypeError`.
Termination: each iteration grows the queue and `can_run` requires
`qsize() < max_readings`. -/
def readings_loop (env : Env) (s : HState) : HState × Option PyError :=
  match h : can_run s with
  | none => (s, some PyError.typeError)
  | some false => (s, none)
  | some true =>
    if s.interval_seconds = 0 then
      (reading_step env s, some PyError.zeroDivisionError)
    else readings_loop env (reading_step env s)
termination_by (s.max_readings - s.readings.length).toNat
decreasing_by
  have h1 := can_run_true_length s h
  have h2 := reading_step_max_readings env s
  have h3 := reading_step_length env s
  omega

/-- `TestHandler.take_readings` (`test_handler.py:145-199`): the uptake
cycle, then the readings loop, then `stop_test()` and `save_test()` —
unconditionally, whether or not the uptake cycle aborted.  `sleep(step)` and
`sleep(interval)` raise `ValueError` for a negative argument; starting the
pumps is device I/O with no effect on the modelled state. -/
def take_readings (env : Env) (s : HState) : HState × Option PyError :=
  if s.uptake_seconds / 100 < 0 then (s, some PyError.valueError)
  else
    match uptake_loop s 0 100 with
    | (s1, some e) => (s1, some e)
    | (s1, none) =>
      if s.interval_seconds < 0 then (s1, some PyError.valueError)
      else
        match readings_loop env s1 with
        | (s2, some e) => (s2, some e)
        | (s2, none) => (save_test (stop_test s2), none)

/-- A `NextGenPump` handle as the controller sees it: the serial port name
and whether the port is open. -/
structure Pump where
  serial_name : String
  is_open : Bool
deriving DecidableEq, Repr

/-- The serial environment: whether constructing `NextGenPump(port)` yields
an open connection on that port. -/
structure SerialEnv where
  connects : String → Bool

/-- Constructing `NextGenPump(self.dev1.get(), self.logger)`: serial I/O on
the named port; the handle's `is_open` reflects the outcome. -/
def mkPump (env : SerialEnv) (port : String) : Pump :=
  ⟨port, env.connects port⟩

/-- The device-selection fields `setup_pumps` works on: the two selector
strings and the current (possibly `None`) pump handles. -/
structure SetupInput where
  dev1 : String
  dev2 : String
  pump1 : Option Pump
  pump2 : Option Pump
deriving DecidableEq, Repr

/-- What a `setup_pumps` call did: resulting handles, the issues list (a
Python list mutated in place, so it survives an exception), the ports on
which pump constructors were run (serial I/O), the pumps whose flowrate was
set (device write), and the exception if one was raised. -/
structure SetupResult where
  pump1 : Option Pump
  pump2 : Option Pump
  issues : List String
  constructed : List String
  flow_set : List String
  error : Option PyError
deriving DecidableEq, Repr

/-- One iteration of the `for pump in (self.pump1, self.pump2):` loop of
`setup_pumps` (`test_handler.py:257-262`):

```python
if pump is None or not pump.is_open:
    issues.append(f"Couldn't connect to {pump.serial.name}")
    continue
pump.flowrate = self.project.flowrate.get()
```

When `pump` is `None` the guard is true, but building the f-string
evaluates `pump.serial.name` on `None`, raising `AttributeError`. -/
def setup_one_pump (p : Option Pump) (issues flow_set : List String) :
    List String × List String × Option PyError :=
  match p with
  | none => (issues, flow_set, some PyError.attributeError)
  | some pump =>
    if !pump.is_open then
      (issues ++ ["Couldn't connect to " ++ pump.serial_name], flow_set, none)
    else (issues, flow_set ++ [pump.serial_name], none)

/-- `TestHandler.setup_pumps` (`test_handler.py:238-262`): port-selection
checks append issues; when the two selectors are equal, "Select two unique
ports" is appended and no `NextGenPump` is constructed (the handles keep
their old values, `None` on a fresh handler); otherwise both constructors
run.  Then the per-pump loop of `setup_one_pump` runs over both handles,
aborting on the first exception. -/
def setup_pumps (env : SerialEnv) (s : SetupInput) (issues0 : List String) :
    SetupResult :=
  let issues1 := issues0 ++
    (if s.dev1 = "" ∨ s.dev1 = "None found" then ["Select a port for pump 1"] else [])
  let issues2 := issues1 ++
    (if s.dev2 = "" ∨ s.dev2 = "None found" then ["Select a port for pump 2"] else [])
  if s.dev1 = s.dev2 then
    let issues3 := issues2 ++ ["Select two unique ports"]
    match setup_one_pump s.pump1 issues3 [] with
    | (issues4, fs, some e) => ⟨s.pump1, s.pump2, issues4, [], fs, some e⟩
    | (issues4, fs, none) =>
      match setup_one_pump s.pump2 issues4 fs with
      | (issues5, fs', e) => ⟨s.pump1, s.pump2, issues5, [], fs', e⟩
  else
    let p1 := mkPump env s.dev1
    let p2 := mkPump env s.dev2
    match setup_one_pump (some p1) issues2 [] with
    | (issues4, fs, some e) =>
      ⟨some p1, some p2, issues4, [s.dev1, s.dev2], fs, some e⟩
    | (issues4, fs, none) =>
      match setup_one_pump (some p2) issues4 fs with
      | (issues5, fs', e) =>
        ⟨some p1, some p2, issues5, [s.dev1, s.dev2], fs', e⟩

/-- The fields the pre-pump checks of `start_test` read.
`project_path_exists` is the fact of the file system: whether
`self.project.path.get()` names an existing file. -/
structure StartInput where
  project_path_exists : Bool
  test_name : String
  existing_test_names : List String
  clarity : String
  is_blank : Bool
deriving DecidableEq, Repr

/-- `test_handler.py:115` reads `Path(self.project.path.get()).is_file` —
without call parentheses.  The expression is the bound method object, which
is always truthy in Python, so `not Path(...).is_file` is `False` for every
path, existing or not. -/
def not_path_is_file (path_exists : Bool) : Bool := false

/-- The issue list accumulated by the four pre-pump checks of
`TestHandler.start_test` (`test_handler.py:114-129`), in program order:
missing project file (via the constant-false `not_path_is_file`), empty
test name, duplicate test name, missing water clarity on a non-blank. -/
def start_test_issues (s : StartInput) : List String :=
  (if not_path_is_file s.project_path_exists then
    ["Select an existing project file first"] else [])
  ++ (if s.test_name = "" then ["Name the experiment before starting"] else [])
  ++ (if s.existing_test_names.contains s.test_name then
    ["A test with this name already exists in the project"] else [])
  ++ (if s.clarity = "" ∧ s.is_blank = false then
    ["Water clarity cannot be blank"] else [])

/-! ### Helper lemmas -/

theorem pymod_eq_mul_fract (x y : ℚ) (hy : y ≠ 0) :
    pymod x y = y * Int.fract (x / y) := by
  unfold pymod Int.fract
  field_simp

theorem pymod_nonneg (x y : ℚ) (hy : 0 < y) : 0 ≤ pymod x y := by
  rw [pymod_eq_mul_fract x y hy.ne']
  exact mul_nonneg hy.le (Int.fract_nonneg _)

theorem pymod_lt (x y : ℚ) (hy : 0 < y) : pymod x y < y := by
  rw [pymod_eq_mul_fract x y hy.ne']
  calc y * Int.fract (x / y) < y * 1 := by
        exact mul_lt_mul_of_pos_left (Int.fract_lt_one _) hy
    _ = y := mul_one y

theorem pyRound_nonneg (q : ℚ) (h : 0 ≤ q) : 0 ≤ pyRound q := by
  unfold pyRound
  have hf : 0 ≤ ⌊q⌋ := Int.floor_nonneg.mpr h
  split_ifs <;> omega

theorem pyRound_pos (q : ℚ) (h : 1 / 2 < q) : 1 ≤ pyRound q := by
  unfold pyRound
  have hq : 0 ≤ q := le_of_lt (lt_trans (by norm_num) h)
  have hf0 : 0 ≤ ⌊q⌋ := Int.floor_nonneg.mpr hq
  by_cases hf1 : 1 ≤ ⌊q⌋
  · split_ifs <;> omega
  · have hf : ⌊q⌋ = 0 := by omega
    have hr : q - (⌊q⌋ : ℚ) = q := by rw [hf]; simp
    split_ifs with h1 h2 h3
    · exfalso
      rw [hr] at h1
      linarith
    · omega
    · exfalso
      rw [hr] at h2
      linarith
    · omega

/-- Characterization of `can_run s = some true` when `elapsed_min` holds a
number. -/
theorem can_run_some_true (s : HState) (e : ℚ) (he : s.elapsed_min = some e) :
    can_run s = some true ↔
      ((s.max_psi_1 ≤ (s.limit_psi : ℚ) ∨ s.max_psi_2 ≤ (s.limit_psi : ℚ)) ∧
        e ≤ s.limit_minutes ∧ (s.readings.length : ℤ) < s.max_readings ∧
        s.stop_requested = false) := by
  unfold can_run
  rw [he]
  split_ifs with hor
  · simp only [Option.some.injEq, Bool.and_eq_true, decide_eq_true_eq,
      Bool.not_eq_true']
    constructor
    · rintro ⟨⟨h1, h2⟩, h3⟩
      exact ⟨hor, h1, h2, h3⟩
    · rintro ⟨_, h1, h2, h3⟩
      exact ⟨⟨h1, h2⟩, h3⟩
  · simp only [Option.some.injEq, Bool.false_eq_true, false_iff]
    rintro ⟨h, _⟩
    exact hor h

/-- `stop_test` touches only the pump flags and `is_done`, none of which
`can_run` reads. -/
theorem can_run_stop_test (s : HState) :
    can_run (stop_test s) = can_run s := rfl

/-- When `can_run` is `some false` the uptake cycle aborts on its first
iteration: `stop_test` runs and the loop `break`s. -/
theorem uptake_loop_abort (s : HState) (i n : ℕ)
    (h : can_run s = some false) :
    uptake_loop s i (n + 1) = (stop_test s, none) := by
  unfold uptake_loop
  rw [h]

/-- When `can_run` is `some false` the readings loop exits at once. -/
theorem readings_loop_exit (env : Env) (s : HState)
    (h : can_run s = some false) :
    readings_loop env s = (s, none) := by
  unfold readings_loop
  rw [h]

/-- Fields of the state `new_test` produces, in both the normal and the
`ZeroDivisionError` case. -/
theorem new_test_fields (s : HState) :
    ((new_test s).1).max_psi_1 = 0 ∧ ((new_test s).1).max_psi_2 = 0 ∧
    ((new_test s).1).elapsed_min = s.elapsed_min ∧
    ((new_test s).1).limit_psi = s.limit_psi ∧
    ((new_test s).1).readings = [] := by
  unfold new_test
  split_ifs <;> simp

/-! ### Claim theorems -/

/-- C1: for every controller state whose `elapsed_min` holds a number (so
that no comparison raises), `can_run` returns `true` exactly when
`(max_psi_1 <= limit OR max_psi_2 <= limit) AND elapsed_min <= limit_minutes
AND qsize < max_readings AND NOT stop_requested`, with inclusive `<=` on the
pressure disjunction; and it returns `false` whenever `stop_requested` is
set, regardless of the other fields. -/
theorem can_run_termination_predicate (s : HState) (e : ℚ)
    (he : s.elapsed_min = some e) :
    (can_run s = some true ↔
      ((s.max_psi_1 ≤ (s.limit_psi : ℚ) ∨ s.max_psi_2 ≤ (s.limit_psi : ℚ)) ∧
        e ≤ s.limit_minutes ∧ (s.readings.length : ℤ) < s.max_readings ∧
        s.stop_requested = false)) ∧
    (s.stop_requested = true → can_run s = some false) := by
  refine ⟨can_run_some_true s e he, fun hst => ?_⟩
  unfold can_run
  rw [he]
  split_ifs with hor
  · simp [hst]
  · rfl

/-- A controller state with numeric `elapsed_min`, used to instantiate the
hypothesis-bearing claim theorems. -/
def wState : HState :=
  { limit_psi := 500, limit_minutes := 90, interval_seconds := 3,
    uptake_seconds := 60, max_psi_1 := 0, max_psi_2 := 0,
    elapsed_min := some 5, readings := [], max_readings := 1800,
    stop_requested := false, is_running := true, is_done := false,
    progress := 0, pump1_open := true, pump2_open := true,
    test_readings := [], project_tests := [], dump_count := 0 }

theorem can_run_termination_predicate_witness :
    (can_run wState = some true ↔
      ((wState.max_psi_1 ≤ (wState.limit_psi : ℚ) ∨
          wState.max_psi_2 ≤ (wState.limit_psi : ℚ)) ∧
        (5 : ℚ) ≤ wState.limit_minutes ∧
        (wState.readings.length : ℤ) < wState.max_readings ∧
        wState.stop_requested = false)) ∧
    (wState.stop_requested = true → can_run wState = some false) :=
  can_run_termination_predicate wState 5 (by decide)

/-- C2: when the Termination Predicate is `False` as the uptake cycle starts
(for example after `request_stop`), `take_readings` still falls through the
`break` into the code after the readings loop and calls `save_test`: the
(sample-less) `Test` is appended to the project and `dump_json` runs.  The
run that never left uptake does persist a Test, contradicting the spec. -/
theorem take_readings_uptake_abort_saves (env : Env) (s : HState)
    (h0 : 0 ≤ s.uptake_seconds) (h1 : 0 ≤ s.interval_seconds)
    (h : can_run s = some false) :
    take_readings env s = (save_test (stop_test (stop_test s)), none) ∧
    (take_readings env s).1.project_tests =
      s.project_tests ++ [s.test_readings ++ s.readings] ∧
    (take_readings env s).1.dump_count = s.dump_count + 1 := by
  have e1 : uptake_loop s 0 100 = (stop_test s, none) := by
    have e := uptake_loop_abort s 0 99 h
    norm_num at e
    exact e
  have e2 : readings_loop env (stop_test s) = (stop_test s, none) :=
    readings_loop_exit env (stop_test s) ((can_run_stop_test s).trans h)
  have key : take_readings env s = (save_test (stop_test (stop_test s)), none) := by
    unfold take_readings
    rw [if_neg (not_lt.mpr (div_nonneg h0 (by norm_num))), e1]
    dsimp only
    rw [if_neg (not_lt.mpr h1), e2]
  refine ⟨key, ?_, ?_⟩ <;> rw [key] <;> rfl

/-- A state whose Termination Predicate is `some false` before uptake:
`stop_requested` is set, everything else is in limits. -/
def abortState : HState :=
  { limit_psi := 500, limit_minutes := 90, interval_seconds := 3,
    uptake_seconds := 60, max_psi_1 := 0, max_psi_2 := 0,
    elapsed_min := some 0, readings := [], max_readings := 1800,
    stop_requested := true, is_running := true, is_done := false,
    progress := 0, pump1_open := true, pump2_open := true,
    test_readings := [], project_tests := [], dump_count := 0 }

/-- An environment with constant readings; unused on the abort path. -/
def env0 : Env := ⟨fun _ => 0, fun _ => 0, fun _ => 0⟩

theorem take_readings_uptake_abort_saves_witness :
    take_readings env0 abortState =
      (save_test (stop_test (stop_test abortState)), none) ∧
    (take_readings env0 abortState).1.project_tests =
      abortState.project_tests ++ [abortState.test_readings ++ abortState.readings] ∧
    (take_readings env0 abortState).1.dump_count = abortState.dump_count + 1 :=
  take_readings_uptake_abort_saves env0 abortState (by decide) (by decide) (by decide)

/-- C3: on a freshly armed test the Termination Predicate is *not* total:
`__init__` leaves `elapsed_min = None` and `new_test` never assigns it, so
the first `can_run()` of the uptake cycle evaluates `None <= float` and
raises `TypeError` (result `none`) whenever the pressure disjunction is
truthy (e.g. the fresh maxima `0` against a nonnegative limit). -/
theorem can_run_fresh_state_type_error (s : HState)
    (h1 : s.elapsed_min = none) (h2 : 0 ≤ s.limit_psi) :
    ((new_test s).1).elapsed_min = none ∧ can_run ((new_test s).1) = none := by
  obtain ⟨hm1, _, hel, hlim, _⟩ := new_test_fields s
  refine ⟨hel.trans h1, ?_⟩
  unfold can_run
  rw [hm1, hel, h1, hlim, if_pos (Or.inl (by exact_mod_cast h2))]

/-- The controller state right after `__init__` (before `new_test` inside it
resets the counters): `elapsed_min` is `None`. -/
def freshState : HState :=
  { limit_psi := 500, limit_minutes := 90, interval_seconds := 3,
    uptake_seconds := 60, max_psi_1 := 0, max_psi_2 := 0,
    elapsed_min := none, readings := [], max_readings := 1800,
    stop_requested := false, is_running := false, is_done := false,
    progress := 0, pump1_open := false, pump2_open := false,
    test_readings := [], project_tests := [], dump_count := 0 }

theorem can_run_fresh_state_type_error_witness :
    ((new_test freshState).1).elapsed_min = none ∧
    can_run ((new_test freshState).1) = none :=
  can_run_fresh_state_type_error freshState (by decide) (by decide)

/-- A project limit configuration with a positive time limit and interval
whose reading count rounds to zero: 0.25 minutes at 60-second intervals. -/
def cexState : HState :=
  { limit_psi := 500, limit_minutes := 1 / 4, interval_seconds := 60,
    uptake_seconds := 60, max_psi_1 := 0, max_psi_2 := 0,
    elapsed_min := some 0, readings := [], max_readings := 1800,
    stop_requested := false, is_running := false, is_done := false,
    progress := 0, pump1_open := false, pump2_open := false,
    test_readings := [], project_tests := [], dump_count := 0 }

/-- C4 counterexample: `time_limit_minutes = 1/4 > 0` and
`sample_interval_seconds = 60 > 0`, yet
`max_readings = round(0.25 * 60 / 60) = round(0.25) = 0`. -/
theorem max_readings_zero_counterexample :
    0 < cexState.limit_minutes ∧ 0 < cexState.interval_seconds ∧
    ((new_test cexState).1).max_readings = 0 := by
  refine ⟨by norm_num [cexState], by norm_num [cexState], ?_⟩
  norm_num [new_test, pyRound, cexState]

/-- C4 (amended): `new_test` sets
`max_readings = round(limit_minutes * 60 / interval_seconds)` (Python
banker's rounding); for positive limits the value is never negative, and it
is positive whenever the ratio exceeds `1/2` (in particular whenever the
time limit spans at least one sampling interval). -/
theorem max_readings_formula_bounds (s : HState)
    (h1 : 0 < s.limit_minutes) (h2 : 0 < s.interval_seconds) :
    ((new_test s).1).max_readings =
      pyRound (s.limit_minutes * 60 / s.interval_seconds) ∧
    0 ≤ ((new_test s).1).max_readings ∧
    (1 / 2 < s.limit_minutes * 60 / s.interval_seconds →
      1 ≤ ((new_test s).1).max_readings) := by
  have hform : ((new_test s).1).max_readings =
      pyRound (s.limit_minutes * 60 / s.interval_seconds) := by
    unfold new_test
    rw [if_neg h2.ne']
  have hpos : 0 ≤ s.limit_minutes * 60 / s.interval_seconds :=
    div_nonneg (mul_nonneg h1.le (by norm_num)) h2.le
  refine ⟨hform, ?_, fun hr => ?_⟩
  · rw [hform]
    exact pyRound_nonneg _ hpos
  · rw [hform]
    exact pyRound_pos _ hr

theorem max_readings_formula_bounds_witness :
    ((new_test wState).1).max_readings =
      pyRound (wState.limit_minutes * 60 / wState.interval_seconds) ∧
    0 ≤ ((new_test wState).1).max_readings ∧
    (1 / 2 < wState.limit_minutes * 60 / wState.interval_seconds →
      1 ≤ ((new_test wState).1).max_readings) :=
  max_readings_formula_bounds wState (by decide) (by decide)

/-- C5: when both selectors hold the same (non-empty, non-placeholder) port
and the pump handles are still `None` (a fresh handler), `setup_pumps`
appends the "Select two unique ports" issue and constructs no pump (no
serial I/O, no flowrate write) — but then the per-pump loop evaluates
`pump.serial.name` on `None` and raises `AttributeError` instead of
returning the issues to `start_test`. -/
theorem setup_pumps_same_port_attribute_error (env : SerialEnv)
    (s : SetupInput) (issues0 : List String)
    (h1 : s.dev1 = s.dev2) (h2 : ¬(s.dev1 = "" ∨ s.dev1 = "None found"))
    (h3 : s.pump1 = none) :
    (setup_pumps env s issues0).error = some PyError.attributeError ∧
    (setup_pumps env s issues0).issues =
      issues0 ++ ["Select two unique ports"] ∧
    (setup_pumps env s issues0).constructed = [] ∧
    (setup_pumps env s issues0).flow_set = [] := by
  have h2' : ¬(s.dev2 = "" ∨ s.dev2 = "None found") := h1 ▸ h2
  unfold setup_pumps
  rw [if_neg h2, if_neg h2', if_pos h1, h3]
  simp [setup_one_pump]

/-- The fresh-handler device-selection state with both selectors on the same
port. -/
def samePortInput : SetupInput := ⟨"COM3", "COM3", none, none⟩

/-- A serial environment in which every port would connect. -/
def serialEnv0 : SerialEnv := ⟨fun _ => true⟩

theorem setup_pumps_same_port_attribute_error_witness :
    (setup_pumps serialEnv0 samePortInput []).error =
      some PyError.attributeError ∧
    (setup_pumps serialEnv0 samePortInput []).issues =
      [] ++ ["Select two unique ports"] ∧
    (setup_pumps serialEnv0 samePortInput []).constructed = [] ∧
    (setup_pumps serialEnv0 samePortInput []).flow_set = [] :=
  setup_pumps_same_port_attribute_error serialEnv0 samePortInput []
    (by decide) (by decide) (by decide)

/-- C6: the missing-project-file check of `start_test` can never fire:
`Path(...).is_file` without parentheses is always truthy, so
"Select an existing project file first" is never among the accumulated
issues, and the issue list does not depend on whether the project file
exists. -/
theorem start_test_missing_file_issue_never_reported (s : StartInput) :
    ((start_test_issues s).contains "Select an existing project file first")
      = false ∧
    start_test_issues s =
      start_test_issues { s with project_path_exists := true } := by
  constructor
  · unfold start_test_issues not_path_is_file
    rw [if_neg (by decide : ¬((false : Bool) = true))]
    split_ifs <;> decide
  · rfl

/-- C7: `request_stop` is idempotent, is the identity when no test is
running, and only ever sets the stop flag (every other field is left
unchanged). -/
theorem request_stop_idempotent_flag_only (s : HState) :
    request_stop (request_stop s) = request_stop s ∧
    (s.is_running = false → request_stop s = s) ∧
    (request_stop s = s ∨
      request_stop s = { s with stop_requested := true }) := by
  unfold request_stop
  cases hr : s.is_running <;> simp [hr]

/-- C8: the drift-corrected per-tick sleep
`interval - ((now - start_time) % interval)` is never negative and never
exceeds `interval`, for every positive interval and every `now >= start`. -/
theorem sleep_duration_bounds (interval now start : ℚ)
    (h : 0 < interval) (h2 : start ≤ now) :
    0 ≤ sleep_duration interval now start ∧
    sleep_duration interval now start ≤ interval := by
  unfold sleep_duration
  have a := pymod_nonneg (now - start) interval h
  have b := pymod_lt (now - start) interval h
  constructor <;> linarith

theorem sleep_duration_bounds_witness :
    0 ≤ sleep_duration 3 10 2 ∧ sleep_duration 3 10 2 ≤ 3 :=
  sleep_duration_bounds 3 10 2 (by norm_num) (by norm_num)

/-- C9: `save_test` appends every buffered reading, in FIFO (insertion)
order, to the test record; the test saved into the project is exactly that
drained record, appended before the single `dump_json` call; and arming the
next run (`new_test`) leaves the channel buffer empty. -/
theorem save_test_fifo_drain_and_clear (s : HState) :
    (save_test s).test_readings = s.test_readings ++ s.readings ∧
    (save_test s).project_tests =
      s.project_tests ++ [(save_test s).test_readings] ∧
    (save_test s).dump_count = s.dump_count + 1 ∧
    ((new_test (save_test s)).1).readings = [] := by
  refine ⟨rfl, rfl, rfl, ?_⟩
  exact (new_test_fields (save_test s)).2.2.2.2

/-- C10: `take_readings` needs `uptake_seconds > 0`: with
`uptake_seconds = 0` the uptake step is `0` and the first sleep's
`% step` raises `ZeroDivisionError` before any sample is taken, while for
any positive `uptake_seconds` the same modulo is well-defined. -/
theorem take_readings_zero_uptake_division (env : Env) (s : HState)
    (hcr : can_run s = some true) :
    (s.uptake_seconds = 0 →
      (take_readings env s).2 = some PyError.zeroDivisionError ∧
      (take_readings env s).1.readings = s.readings) ∧
    (0 < s.uptake_seconds →
      ∀ t : ℚ, (pymodOpt t (s.uptake_seconds / 100)).isSome = true) := by
  constructor
  · intro hu
    have e1 : uptake_loop s 0 100 =
        ({ s with progress := (0 : ℤ) }, some PyError.zeroDivisionError) := by
      have h100 : (100 : ℕ) = 99 + 1 := by norm_num
      rw [h100]
      unfold uptake_loop
      rw [hcr]
      dsimp only
      rw [if_pos hu]
      norm_num
    have key : take_readings env s =
        ({ s with progress := (0 : ℤ) }, some PyError.zeroDivisionError) := by
      unfold take_readings
      rw [if_neg (show ¬(s.uptake_seconds / 100 < 0) by rw [hu]; norm_num), e1]
    rw [key]
    exact ⟨rfl, rfl⟩
  · intro hu t
    have hne : s.uptake_seconds / 100 ≠ 0 := by positivity
    simp [pymodOpt, hne]

/-- A runnable state (`can_run = some true`) with `uptake_seconds = 0`. -/
def zeroUptakeState : HState :=
  { limit_psi := 500, limit_minutes := 90, interval_seconds := 3,
    uptake_seconds := 0, max_psi_1 := 0, max_psi_2 := 0,
    elapsed_min := some 0, readings := [], max_readings := 1800,
    stop_requested := false, is_running := true, is_done := false,
    progress := 0, pump1_open := true, pump2_open := true,
    test_readings := [], project_tests := [], dump_count := 0 }

theorem take_readings_zero_uptake_division_witness :
    (zeroUptakeState.uptake_seconds = 0 →
      (take_readings env0 zeroUptakeState).2 = some PyError.zeroDivisionError ∧
      (take_readings env0 zeroUptakeState).1.readings =
        zeroUptakeState.readings) ∧
    (0 < zeroUptakeState.uptake_seconds →
      ∀ t : ℚ,
        (pymodOpt t (zeroUptakeState.uptake_seconds / 100)).isSome = true) :=
  take_readings_zero_uptake_division env0 zeroUptakeState (by decide)

end ScaleWiz
